import Mathlib

/-!
Verification of the ConnectMeet mesh-session coordinator.

This file gives a shallow embedding of the coordinator logic of
src/App.tsx (participant roster upserts, the meeting state machine,
data-channel broadcast, the reaction sweep, camera toggling, chat send)
and of the text-generation helpers, and proves or refutes the
specification claims about them.
-/

namespace ConnectMeet

/-- String used by handleJoinMeeting as the id of the local placeholder
participant before the transport assigns a real peer id. -/
def localTempId : String := "local-temp"

/-- String used by handleJoinMeeting as the initial id of the local User
record before the transport assigns a real peer id. -/
def tempInitId : String := "temp-init"

/-- Track kind string for audio tracks, as compared by `t.kind === 'audio'`. -/
def audioKind : String := "audio"

/-- Track kind string for video tracks, as compared by `t.kind === 'video'`. -/
def videoKind : String := "video"

/-- Ready-state string of a stopped media track (`readyState === 'ended'`). -/
def endedState : String := "ended"

/-- Ready-state string of a live media track. -/
def liveState : String := "live"

/-- Name given to a participant created from a media stream before its
USER_INFO arrived. -/
def connectingName : String := "Connecting..."

/-- Default display name used when a USER_INFO payload carries an empty name. -/
def guestName : String := "Guest"

/-- Sentinel returned by both text-generation helpers when the API key is missing. -/
def noApiKeyMsg : String := "API Key not configured."

/-- Sentinel returned by generateMeetingSummary when the API returns no text. -/
def summaryEmptyMsg : String := "Could not generate summary."

/-- Sentinel returned by generateMeetingSummary when the API call throws. -/
def summaryErrorMsg : String := "Error connecting to AI Assistant."

/-- Sentinel returned by askAiAssistant when the API returns no text. -/
def assistantEmptyMsg : String := "I didn't understand that."

/-- Sentinel returned by askAiAssistant when the API call throws. -/
def assistantErrorMsg : String := "I'm having trouble thinking right now."

/-- Prefix that marks a chat message as addressed to the assistant. -/
def geminiTag : String := "@gemini"

/-- Synthetic sender id used for assistant queries addressed with the tag. -/
def geminiBotId : String := "gemini-bot"

/-- Synthetic sender name used for assistant answers. -/
def geminiBotName : String := "Gemini AI"

/-- Connection quality levels, from src/types.ts. -/
inductive ConnectionQuality where
  | EXCELLENT
  | GOOD
  | POOR
deriving DecidableEq

/-- Meeting lifecycle states, from src/types.ts. -/
inductive MeetingState where
  | LOBBY
  | JOINING
  | IN_MEETING
  | LEFT
deriving DecidableEq

/-- A reaction attached to a participant, from src/types.ts. -/
structure Reaction where
  id : String
  emoji : String
  timestamp : Nat
deriving DecidableEq

/-- A media track: kind and ready-state strings mirror the DOM MediaStreamTrack
fields the code inspects; tid distinguishes distinct track objects. -/
structure MediaStreamTrack where
  tid : Nat
  kind : String
  readyState : String
deriving DecidableEq

/-- A media stream is the list of tracks it carries. -/
structure MediaStream where
  tracks : List MediaStreamTrack
deriving DecidableEq

/-- The local user record, from src/types.ts. -/
structure User where
  id : String
  name : String
  avatarUrl : String
  isHost : Bool
  email : Option String := none
deriving DecidableEq

/-- A roster entry, from src/types.ts (Participant extends User). -/
structure Participant where
  id : String
  name : String
  avatarUrl : String
  isHost : Bool
  isMuted : Bool
  isVideoOff : Bool
  isScreenSharing : Bool
  isBlurredBackground : Bool
  isSpeaking : Bool
  connectionQuality : ConnectionQuality
  reactions : List Reaction
  stream : Option MediaStream := none
  peerId : Option String := none
deriving DecidableEq

/-- A chat message, from src/types.ts; the optional isSystem/isAi flags are
modelled as booleans defaulting to false. -/
structure ChatMessage where
  id : String
  senderId : String
  senderName : String
  text : String
  timestamp : Nat
  isSystem : Bool := false
  isAi : Bool := false
deriving DecidableEq

/-- Payload of a USER_INFO wire message, as built in handleDataConnection. -/
structure UserInfoPayload where
  id : String
  name : String
  avatarUrl : String
  isMuted : Bool
  isVideoOff : Bool
deriving DecidableEq

/-- Payload of an UPDATE_STATE wire message, as built in the state-broadcast effect. -/
structure UpdateStatePayload where
  peerId : String
  isMuted : Bool
  isVideoOff : Bool
  isBlurredBackground : Bool
deriving DecidableEq

/-- Avatar fallback used for a participant created by handleUserInfoUpdate
with an empty avatar reference. -/
def guestAvatarUrl : String := "https://ui-avatars.com/api/?name=Guest"

/-- Avatar used for a placeholder participant created from a media stream. -/
def placeholderAvatarUrl : String := "https://ui-avatars.com/api/?name=?"

/-- Projection of a roster to the list of participant ids. -/
def idsOf (ps : List Participant) : List String := ps.map fun p => p.id

/-- Predicate: the roster holds no two entries with the same id. -/
def NodupIds (ps : List Participant) : Prop := (idsOf ps).Nodup

/-- Predicate: the roster holds no entry keyed by the temp-init placeholder. -/
def NoTempInit (ps : List Participant) : Prop := tempInitId ∉ idsOf ps

/-- Merge of a USER_INFO payload into an existing participant: the object
spread of the payload over the entry overwrites id, name, avatarUrl, isMuted
and isVideoOff and leaves every other field (in particular stream) alone. -/
def applyUserInfo (p : Participant) (info : UserInfoPayload) : Participant :=
  { p with id := info.id, name := info.name, avatarUrl := info.avatarUrl,
           isMuted := info.isMuted, isVideoOff := info.isVideoOff }

/-- Participant freshly created by handleUserInfoUpdate when no entry with
the sender's id exists yet; name and avatar fall back when empty (falsy). -/
def newParticipantFromInfo (id : String) (info : UserInfoPayload) : Participant :=
  { id := id,
    name := if info.name == "" then guestName else info.name,
    avatarUrl := if info.avatarUrl == "" then guestAvatarUrl else info.avatarUrl,
    isHost := false, isMuted := info.isMuted, isVideoOff := info.isVideoOff,
    isScreenSharing := false, isBlurredBackground := false, isSpeaking := false,
    connectionQuality := ConnectionQuality.GOOD, reactions := [],
    stream := none, peerId := none }

/-- Embedding of handleUserInfoUpdate from src/App.tsx: update the entry with
the sender's id if it exists, otherwise append a fresh participant. -/
def handleUserInfoUpdate (id : String) (info : UserInfoPayload)
    (ps : List Participant) : List Participant :=
  if ps.any (fun p => p.id == id) then
    ps.map fun p => if p.id == id then applyUserInfo p info else p
  else
    ps ++ [newParticipantFromInfo id info]

/-- Placeholder participant created when a remote media stream arrives before
the peer's USER_INFO (the race branch of handleMediaCall). -/
def streamPlaceholder (peer : String) (s : MediaStream) : Participant :=
  { id := peer, name := connectingName, avatarUrl := placeholderAvatarUrl,
    isHost := false, isMuted := false, isVideoOff := false,
    isScreenSharing := false, isBlurredBackground := false, isSpeaking := false,
    connectionQuality := ConnectionQuality.GOOD, reactions := [],
    stream := some s, peerId := none }

/-- Embedding of the stream handler of handleMediaCall from src/App.tsx:
attach the stream to the existing entry, or create a placeholder. -/
def handleRemoteStream (peer : String) (s : MediaStream)
    (ps : List Participant) : List Participant :=
  if ps.any (fun p => p.id == peer) then
    ps.map fun p => if p.id == peer then { p with stream := some s } else p
  else
    ps ++ [streamPlaceholder peer s]

/-- Embedding of updateParticipantState from src/App.tsx: the object spread
of an UPDATE_STATE payload patches the flags of the matching entry. -/
def updateParticipantState (id : String) (st : UpdateStatePayload)
    (ps : List Participant) : List Participant :=
  ps.map fun p =>
    if p.id == id then
      { p with peerId := some st.peerId, isMuted := st.isMuted,
               isVideoOff := st.isVideoOff,
               isBlurredBackground := st.isBlurredBackground }
    else p

/-- Embedding of addReaction from src/App.tsx: append a reaction to the
matching participant (rid stands for the random id, now for Date.now()). -/
def addReaction (rid : String) (pid : String) (emoji : String) (now : Nat)
    (ps : List Participant) : List Participant :=
  ps.map fun p =>
    if p.id == pid then
      { p with reactions := p.reactions ++ [{ id := rid, emoji := emoji, timestamp := now }] }
    else p

/-- Embedding of removeParticipant from src/App.tsx (the roster part). -/
def removeParticipant (id : String) (ps : List Participant) : List Participant :=
  ps.filter fun p => !(p.id == id)

/-- Embedding of the "update local participant id" effect of src/App.tsx:
once the real peer id is known, entries keyed local-temp or temp-init are
re-keyed to it and take the local user's name. -/
def rekeyLocalParticipant (newId : String) (name : String)
    (ps : List Participant) : List Participant :=
  ps.map fun p =>
    if p.id == localTempId || p.id == tempInitId then
      { p with id := newId, name := name }
    else p

/-- Embedding of one tick of the reaction-cleanup interval of src/App.tsx:
every participant keeps exactly the reactions younger than 2000ms. -/
def sweepAt (now : Nat) (ps : List Participant) : List Participant :=
  ps.map fun p =>
    { p with reactions := p.reactions.filter fun r => now - r.timestamp < 2000 }

/-- Run the reaction sweep at each time of the given schedule, in order. -/
def runSweeps : List Nat → List Participant → List Participant
  | [], ps => ps
  | s :: rest, ps => runSweeps rest (sweepAt s ps)

/-- Times at which the 500ms cleanup interval has fired by time t
(the interval starts at 0, so fires at 500, 1000, ...). -/
def sweepTimesUpTo (t : Nat) : List Nat :=
  ((List.range (t / 500 + 1)).map (fun k => 500 * k)).filter fun s => 0 < s

/-- The single-entry roster installed by handleJoinMeeting: the local user
under the local-temp placeholder id with the lobby toggle state. -/
def initialLocalParticipant (user : User) (stream : MediaStream)
    (isMuted isVideoOff isBlurred : Bool) : Participant :=
  { id := localTempId, name := user.name, avatarUrl := user.avatarUrl,
    isHost := user.isHost, isMuted := isMuted, isVideoOff := isVideoOff,
    isScreenSharing := false, isBlurredBackground := isBlurred,
    isSpeaking := false, connectionQuality := ConnectionQuality.EXCELLENT,
    reactions := [], stream := some stream, peerId := none }

/-- Events that mutate the participant roster in src/App.tsx. -/
inductive MeshEvent where
  | userInfo (sender : String) (info : UserInfoPayload)
  | remoteStream (peer : String) (s : MediaStream)
  | stateUpdate (st : UpdateStatePayload)
  | reactionEvent (rid : String) (peer : String) (emoji : String) (now : Nat)
  | rekey (newId : String) (name : String)
  | removePeer (peer : String)
  | sweep (now : Nat)
deriving DecidableEq

/-- Dispatch of a roster event to the corresponding handler of src/App.tsx. -/
def meshStep (ps : List Participant) : MeshEvent → List Participant
  | .userInfo s info => handleUserInfoUpdate s info ps
  | .remoteStream p str => handleRemoteStream p str ps
  | .stateUpdate st => updateParticipantState st.peerId st ps
  | .reactionEvent rid p e now => addReaction rid p e now ps
  | .rekey newId name => rekeyLocalParticipant newId name ps
  | .removePeer p => removeParticipant p ps
  | .sweep now => sweepAt now ps

/-- Run a sequence of roster events. -/
def runMesh : List Participant → List MeshEvent → List Participant
  | ps, [] => ps
  | ps, e :: es => runMesh (meshStep ps e) es

/-- Transport well-formedness of one event against the current roster:
honest peers report their own id in USER_INFO, the rendezvous service never
assigns the reserved placeholder strings as peer ids, and the locally
assigned id is fresh with respect to every non-placeholder roster entry. -/
def wfEventB (ps : List Participant) : MeshEvent → Bool
  | .userInfo s info => info.id == s && !(s == tempInitId)
  | .remoteStream p _ => !(p == tempInitId)
  | .rekey newId _ =>
      !(newId == tempInitId) &&
      ps.all fun p => p.id == localTempId || p.id == tempInitId || !(p.id == newId)
  | _ => true

/-- Transport well-formedness of a whole event sequence, checked against the
roster each event actually sees. -/
def wfTrace : List Participant → List MeshEvent → Bool
  | _, [] => true
  | ps, e :: es => wfEventB ps e && wfTrace (meshStep ps e) es

/-- Payload of the PEER_LIST message built in handleIncomingData: every known
participant except the recipient and the local user, projected to ids. -/
def peerListPayload (participants : List Participant) (senderPeerId : String)
    (localId : Option String) : List String :=
  (participants.filter fun p =>
      !(p.id == senderPeerId) &&
      (match localId with
       | some lid => !(p.id == lid)
       | none => true)).map fun p => p.id

/-- A data connection of the registry: remote peer id, the open flag the code
tests before sending, and the messages delivered over it so far. -/
structure DataConn where
  peer : String
  isOpen : Bool
  received : List String
deriving DecidableEq

/-- Embedding of broadcastData from src/App.tsx: send the message on every
connection whose data channel is open; others are left untouched. -/
def broadcastData (d : String) (conns : List DataConn) : List DataConn :=
  conns.map fun c => if c.isOpen then { c with received := c.received ++ [d] } else c

/-- Connection-map events: a broadcast, or a channel opening/closing. -/
inductive NetEvent where
  | send (m : String)
  | setOpen (peer : String) (b : Bool)
deriving DecidableEq

/-- Step of the connection map under one network event. -/
def netStep (conns : List DataConn) : NetEvent → List DataConn
  | .send m => broadcastData m conns
  | .setOpen peer b =>
      conns.map fun c => if c.peer == peer then { c with isOpen := b } else c

/-- Run a sequence of network events over the connection map. -/
def runNet : List DataConn → List NetEvent → List DataConn
  | conns, [] => conns
  | conns, e :: es => runNet (netStep conns e) es

/-- Blank-name test of handleJoinMeeting: the guard !nameInput.trim() holds
exactly when every character of the name is whitespace. -/
def isBlankName (name : String) : Bool :=
  name.toList.all Char.isWhitespace

/-- Predicate (as a boolean) that a sequence of network events never
broadcasts the given message. -/
def avoidsMessage (m : String) (es : List NetEvent) : Bool :=
  es.all fun e =>
    match e with
    | .send m2 => !(m2 == m)
    | .setOpen _ _ => true

/-- User-interface events that change the meeting lifecycle state. -/
inductive UiEvent where
  | joinMeeting (name : String)
  | leaveMeeting
deriving DecidableEq

/-- Meeting-state transitions of src/App.tsx: handleJoinMeeting returns
unchanged on a blank name and otherwise sets IN_MEETING directly;
handleLeaveMeeting sets LOBBY directly. -/
def meetingStep (st : MeetingState) : UiEvent → MeetingState
  | .joinMeeting name => if isBlankName name then st else MeetingState.IN_MEETING
  | .leaveMeeting => MeetingState.LOBBY

/-- The sequence of meeting states visited from st under the given events,
including the start state. -/
def meetingTrace (st : MeetingState) : List UiEvent → List MeetingState
  | [] => [st]
  | e :: es => st :: meetingTrace (meetingStep st e) es

/-- Embedding of the incoming-call handler of initializePeer: answer with the
local stream when present, otherwise answer with a freshly acquired stream;
if that acquisition rejects, the catch only logs and no answer happens.
Returns the stream answered with, or none when the call stays unanswered. -/
def answerIncomingCall (localStream : Option MediaStream)
    (fallbackAcquire : Except Unit MediaStream) : Option MediaStream :=
  match localStream with
  | some s => some s
  | none =>
    match fallbackAcquire with
    | .ok s => some s
    | .error _ => none

/-- Stopping a track sets its ready state to ended (track.stop()). -/
def stopTrack (t : MediaStreamTrack) : MediaStreamTrack :=
  { t with readyState := endedState }

/-- The audio tracks of a stream (getAudioTracks). -/
def getAudioTracks (s : MediaStream) : List MediaStreamTrack :=
  s.tracks.filter fun t => t.kind == audioKind

/-- The video tracks of a stream (getVideoTracks). -/
def getVideoTracks (s : MediaStream) : List MediaStreamTrack :=
  s.tracks.filter fun t => t.kind == videoKind

/-- Effect on the local stream of the camera-off branch of toggleCamera:
every video track is stopped in place, nothing else changes. -/
def stopVideoTracksIn (s : MediaStream) : MediaStream :=
  { tracks := s.tracks.map fun t => if t.kind == videoKind then stopTrack t else t }

/-- Stream rebuilt by the camera-on branch of toggleCamera: the still-active
audio tracks of the old stream plus the freshly acquired video track. -/
def rebuildStreamWithVideo (s : MediaStream) (newTrack : MediaStreamTrack) : MediaStream :=
  { tracks := (getAudioTracks s).filter (fun t => !(t.readyState == endedState)) ++ [newTrack] }

/-- An RTP sender of a peer connection, holding its current outbound track. -/
structure RTCSender where
  track : Option MediaStreamTrack
deriving DecidableEq

/-- A media call of the registry: remote peer id and the senders of its
underlying peer connection. -/
structure MediaCall where
  peer : String
  senders : List RTCSender
deriving DecidableEq

/-- Embedding of the per-call replaceTrack of toggleCamera: the first sender
whose current track is a video track gets the new track; without such a
sender the call is untouched. -/
def replaceFirstVideoSender (newTrack : MediaStreamTrack) :
    List RTCSender → List RTCSender
  | [] => []
  | sndr :: rest =>
    match sndr.track with
    | some t =>
      if t.kind == videoKind then { sndr with track := some newTrack } :: rest
      else sndr :: replaceFirstVideoSender newTrack rest
    | none => sndr :: replaceFirstVideoSender newTrack rest

/-- Embedding of toggleCamera from src/App.tsx. Arguments: the current
isVideoOff flag, the local stream, the outcome of the getUserMedia
reacquisition (consulted only on the camera-on path), whether the meeting
state is IN_MEETING, and the media-call registry. Returns the new
isVideoOff flag, the new local stream and the new registry. -/
def toggleCamera (isVideoOff : Bool) (stream : Option MediaStream)
    (acquire : Except Unit MediaStreamTrack) (inMeeting : Bool)
    (calls : List MediaCall) : Bool × Option MediaStream × List MediaCall :=
  let newVideoOff := !isVideoOff
  match stream with
  | none => (newVideoOff, none, calls)
  | some s =>
    if newVideoOff then
      (newVideoOff, some (stopVideoTracksIn s), calls)
    else
      match acquire with
      | .ok newTrack =>
          (newVideoOff, some (rebuildStreamWithVideo s newTrack),
           if inMeeting then
             calls.map fun c => { c with senders := replaceFirstVideoSender newTrack c.senders }
           else calls)
      | .error _ => (true, some s, calls)

/-- Transcript built by the text-generation helpers: non-system messages
rendered as sender-name colon text, joined by newlines. -/
def buildTranscript (messages : List ChatMessage) : String :=
  String.intercalate "\n"
    ((messages.filter fun m => !m.isSystem).map fun m => m.senderName ++ ": " ++ m.text)

/-- Static text of the summary prompt around the transcript. -/
def summaryPromptIntro : String :=
  "You are an expert meeting secretary. Please provide a concise summary of the following meeting chat transcript. Highlight key decisions and action items if any. Transcript: "

/-- Prompt sent by generateMeetingSummary. -/
def summaryPrompt (messages : List ChatMessage) : String :=
  summaryPromptIntro ++ buildTranscript messages

/-- Static text of the assistant prompt before the chat context. -/
def assistantPromptIntro : String :=
  "You are a helpful AI assistant in a video conference meeting. Context from recent chat: "

/-- Static text of the assistant prompt before the user question. -/
def assistantPromptQuestion : String := " User Question: "

/-- Static text of the assistant prompt after the user question. -/
def assistantPromptOutro : String := " Answer concisely and helpfully."

/-- Prompt sent by askAiAssistant: the last ten context messages rendered as
a transcript, wrapped around the query. -/
def assistantPrompt (query : String) (contextMessages : List ChatMessage) : String :=
  assistantPromptIntro ++
    buildTranscript (contextMessages.drop (contextMessages.length - 10)) ++
    assistantPromptQuestion ++ query ++ assistantPromptOutro

/-- Embedding of generateMeetingSummary from the AI service module. The
external model call is the api argument: it returns either the optional
response text or the thrown error. An empty or missing response text is
falsy in the source and falls back to the fixed sentinel. -/
def generateMeetingSummary (apiKey : String)
    (api : String → Except String (Option String))
    (messages : List ChatMessage) : String :=
  if apiKey == "" then noApiKeyMsg
  else
    match api (summaryPrompt messages) with
    | .ok t? =>
      match t? with
      | some t => if t == "" then summaryEmptyMsg else t
      | none => summaryEmptyMsg
    | .error _ => summaryErrorMsg

/-- Embedding of askAiAssistant from the AI service module, with the external
model call abstracted exactly as in generateMeetingSummary. -/
def askAiAssistant (apiKey : String)
    (api : String → Except String (Option String))
    (query : String) (contextMessages : List ChatMessage) : String :=
  if apiKey == "" then noApiKeyMsg
  else
    match api (assistantPrompt query contextMessages) with
    | .ok t? =>
      match t? with
      | some t => if t == "" then assistantEmptyMsg else t
      | none => assistantEmptyMsg
    | .error _ => assistantErrorMsg

/-- Embedding of handleSendMessage from src/App.tsx: build the chat message,
append it to the local log, and return the CHAT_MESSAGE broadcast payload
exactly when the AI-query flag is unset. -/
def handleSendMessage (localUser : Option User) (now : Nat) (text : String)
    (isAiQuery : Bool) (messages : List ChatMessage) :
    List ChatMessage × Option ChatMessage :=
  match localUser with
  | none => (messages, none)
  | some u =>
    let newMessage : ChatMessage :=
      { id := toString now,
        senderId := if isAiQuery && text.startsWith geminiTag then geminiBotId else u.id,
        senderName := if isAiQuery && !(text.startsWith geminiTag) then geminiBotName else u.name,
        text := text, timestamp := now, isSystem := false,
        isAi := isAiQuery && !(text.startsWith geminiTag) }
    (messages ++ [newMessage], if !isAiQuery then some newMessage else none)

/-- An external-call stub that always fails, used to exercise the error
branches of the text-generation helpers. -/
def apiFailStub : String → Except String (Option String) :=
  fun _ => Except.error ("network unreachable")

/-- A minimal participant used in concrete evaluations. -/
def blankParticipant (pid : String) : Participant :=
  { id := pid, name := pid, avatarUrl := "", isHost := false, isMuted := false,
    isVideoOff := false, isScreenSharing := false, isBlurredBackground := false,
    isSpeaking := false, connectionQuality := ConnectionQuality.GOOD,
    reactions := [], stream := none, peerId := none }

/-- A concrete ended audio track used in concrete evaluations. -/
def endedAudioTrack : MediaStreamTrack :=
  { tid := 1, kind := audioKind, readyState := endedState }

/-- A concrete live audio track used in concrete evaluations. -/
def liveAudioTrack : MediaStreamTrack :=
  { tid := 2, kind := audioKind, readyState := liveState }

/-- A concrete freshly acquired live video track. -/
def freshVideoTrack : MediaStreamTrack :=
  { tid := 7, kind := videoKind, readyState := liveState }

/-- Action of the local re-key effect on a single id. -/
def rekeyId (newId : String) (x : String) : String :=
  if x == localTempId || x == tempInitId then newId else x

/-- Relation between a sender before and after the per-call track replacement
of toggleCamera: either the sender is untouched, or its current track was a
video track and only that track was replaced by the new one. -/
def senderUpdatedBy (newTrack : MediaStreamTrack) (sndr sndr2 : RTCSender) : Prop :=
  sndr2 = sndr ∨
  ∃ t, sndr.track = some t ∧ t.kind = videoKind ∧
    sndr2 = { sndr with track := some newTrack }

/-! Theorems. -/

/-- Helper: a message absent from a connection at some index stays absent
under any sequence of network events that never broadcasts that message,
since later broadcasts append only other messages and open/close events do
not touch the received list. -/
theorem runNet_keeps_message_out (m : String) :
    ∀ (es : List NetEvent) (conns : List DataConn) (i : Nat) (c : DataConn),
      conns[i]? = some c → m ∉ c.received →
      avoidsMessage m es = true →
      ∀ c2, (runNet conns es)[i]? = some c2 → m ∉ c2.received := by
  intro es
  induction es with
  | nil =>
    intro conns i c hc hm _ c2 hc2
    simp only [runNet] at hc2
    rw [hc] at hc2
    injection hc2 with h
    exact h ▸ hm
  | cons e rest ih =>
    intro conns i c hc hm hsend c2 hc2
    simp only [runNet] at hc2
    cases e with
    | send m2 =>
      simp only [avoidsMessage, List.all_cons, Bool.and_eq_true, Bool.not_eq_true',
        beq_eq_false_iff_ne, ne_eq] at hsend
      have hne : ¬(m2 = m) := hsend.1
      have hrest : avoidsMessage m rest = true := by
        simpa [avoidsMessage] using hsend.2
      refine ih (netStep conns (NetEvent.send m2)) i
        (if c.isOpen then { c with received := c.received ++ [m2] } else c)
        ?_ ?_ hrest c2 hc2
      · simp [netStep, broadcastData, List.getElem?_map, hc]
      · by_cases hop : c.isOpen <;> simp [hop, hm, Ne.symm hne]
    | setOpen p b =>
      have hrest : avoidsMessage m rest = true := by
        simpa [avoidsMessage] using hsend
      refine ih (netStep conns (NetEvent.setOpen p b)) i
        (if c.peer == p then { c with isOpen := b } else c)
        ?_ ?_ hrest c2 hc2
      · simp [netStep, List.getElem?_map, hc]
      · by_cases hpp : c.peer == p <;> simp [hpp, hm]

/-- C2 counterexample: from the Lobby, a join with a non-blank name moves the
state directly to IN_MEETING — the trace never visits JOINING, and a
subsequent leave returns to LOBBY without visiting LEFT. This refutes the
claim that InMeeting is entered only after passing through Joining and that
leaving passes through Left. -/
theorem c2_counterexample_direct_to_meeting :
    meetingTrace MeetingState.LOBBY [UiEvent.joinMeeting ("alice")] =
      [MeetingState.LOBBY, MeetingState.IN_MEETING] ∧
    MeetingState.JOINING ∉
      meetingTrace MeetingState.LOBBY [UiEvent.joinMeeting ("alice")] ∧
    MeetingState.LEFT ∉
      meetingTrace MeetingState.LOBBY
        [UiEvent.joinMeeting ("alice"), UiEvent.leaveMeeting] := by
  decide

/-- C2 amended: the meeting lifecycle implemented in src/App.tsx uses only the
LOBBY and IN_MEETING states — a join with a non-blank name moves Lobby
directly to InMeeting and a leave moves directly back to Lobby, so JOINING
and LEFT are never entered from the Lobby start state. -/
theorem c2_only_lobby_and_in_meeting (es : List UiEvent) (st : MeetingState)
    (hst : st = MeetingState.LOBBY ∨ st = MeetingState.IN_MEETING) :
    ∀ s ∈ meetingTrace st es,
      s = MeetingState.LOBBY ∨ s = MeetingState.IN_MEETING := by
  induction es generalizing st with
  | nil =>
    intro s hs
    simp [meetingTrace] at hs
    exact hs ▸ hst
  | cons e rest ih =>
    intro s hs
    simp only [meetingTrace, List.mem_cons] at hs
    rcases hs with hs | hs
    · exact hs ▸ hst
    · refine ih (meetingStep st e) ?_ s hs
      cases e with
      | joinMeeting name =>
        by_cases h : isBlankName name
        · simpa [meetingStep, h] using hst
        · simp [meetingStep, h]
      | leaveMeeting => simp [meetingStep]

/-- C2 witness: instantiation of the amended theorem on the concrete trace of
a single successful join. -/
theorem c2_only_lobby_and_in_meeting_witness :
    MeetingState.IN_MEETING = MeetingState.LOBBY ∨
    MeetingState.IN_MEETING = MeetingState.IN_MEETING :=
  c2_only_lobby_and_in_meeting [UiEvent.joinMeeting ("alice")]
    MeetingState.LOBBY (Or.inl rfl) MeetingState.IN_MEETING (by decide)

/-- C3: broadcastData sends the message to exactly the connections whose data
channel is open at send time — an open connection receives it, a closed or
pending one is left untouched — and a connection closed at send time never
receives that message later, under any further broadcasts and channel
open/close events that do not re-send it. -/
theorem c3_broadcast_exactly_open (m : String) (conns : List DataConn)
    (i : Nat) (c : DataConn) (hc : conns[i]? = some c) :
    ((c.isOpen = true →
        (broadcastData m conns)[i]? = some { c with received := c.received ++ [m] }) ∧
     (c.isOpen = false → (broadcastData m conns)[i]? = some c)) ∧
    (∀ es : List NetEvent, avoidsMessage m es = true →
       c.isOpen = false → m ∉ c.received →
       ∀ c2, (runNet (broadcastData m conns) es)[i]? = some c2 →
         m ∉ c2.received) := by
  have hmap : (broadcastData m conns)[i]? =
      some (if c.isOpen then { c with received := c.received ++ [m] } else c) := by
    simp [broadcastData, List.getElem?_map, hc]
  constructor
  · constructor
    · intro hop; simpa [hop] using hmap
    · intro hop; simpa [hop] using hmap
  · intro es hes hop hrec c2 hc2
    have hstart : (broadcastData m conns)[i]? = some c := by simpa [hop] using hmap
    exact runNet_keeps_message_out m es (broadcastData m conns) i c hstart hrec hes c2 hc2

/-- C3 witness: a connection that is closed when a message is broadcast never
holds that message, here after a later broadcast and a reopen. -/
theorem c3_broadcast_exactly_open_witness :
    ("hello" : String) ∉ (DataConn.mk ("B") true [("later")]).received :=
  (c3_broadcast_exactly_open ("hello")
      [DataConn.mk ("A") true [], DataConn.mk ("B") false []] 1
      (DataConn.mk ("B") false []) rfl).2
    [NetEvent.setOpen ("B") true, NetEvent.send ("later")]
    (by decide) rfl (by decide) (DataConn.mk ("B") true [("later")]) (by decide)

/-- C4: the PEER_LIST payload built in handleIncomingData contains an id
exactly when it is the id of a participant currently known to the sender
and it is neither the recipient's id nor the sender's own id. -/
theorem c4_peer_list_payload_exact (participants : List Participant)
    (senderPeerId me x : String) :
    x ∈ peerListPayload participants senderPeerId (some me) ↔
      ((∃ p ∈ participants, p.id = x) ∧ x ≠ senderPeerId ∧ x ≠ me) := by
  simp only [peerListPayload, List.mem_map, List.mem_filter, Bool.and_eq_true,
    Bool.not_eq_true', beq_eq_false_iff_ne, ne_eq]
  constructor
  · rintro ⟨p, ⟨hp, hs, hm⟩, rfl⟩
    exact ⟨⟨p, hp, rfl⟩, hs, hm⟩
  · rintro ⟨⟨p, hp, rfl⟩, hs, hm⟩
    exact ⟨p, ⟨hp, hs, hm⟩, rfl⟩

/-- C6 counterexample: when the local stream was never initialized and the
fallback getUserMedia acquisition rejects, the incoming call is left
unanswered — the catch handler only logs. This refutes the claim that no
execution leaves a call unanswered. -/
theorem c6_counterexample_unanswered_call :
    answerIncomingCall none (Except.error ()) = none := rfl

/-- C6 amended: an incoming call is answered with the local stream whenever
local media is initialized; otherwise the handler answers with a freshly
acquired stream, and the call stays unanswered exactly when local media is
missing and that fallback acquisition fails. -/
theorem c6_answer_policy (localStream : Option MediaStream)
    (fallbackAcquire : Except Unit MediaStream) :
    (∀ s, localStream = some s →
        answerIncomingCall localStream fallbackAcquire = some s) ∧
    (localStream = none → ∀ s, fallbackAcquire = Except.ok s →
        answerIncomingCall localStream fallbackAcquire = some s) ∧
    (answerIncomingCall localStream fallbackAcquire = none ↔
        localStream = none ∧ fallbackAcquire = Except.error ()) := by
  refine ⟨?_, ?_, ?_⟩ <;>
    cases localStream <;>
      cases fallbackAcquire <;>
        simp [answerIncomingCall]

/-- C6 witness: instantiation of the amended theorem — with local media
present the call is answered with it even though the fallback would fail. -/
theorem c6_answer_policy_witness :
    answerIncomingCall (some (MediaStream.mk [liveAudioTrack]))
      (Except.error ()) = some (MediaStream.mk [liveAudioTrack]) :=
  (c6_answer_policy (some (MediaStream.mk [liveAudioTrack]))
    (Except.error ())).1 (MediaStream.mk [liveAudioTrack]) rfl

/-- C9: both text-generation helpers return the fixed missing-credential
sentinel when the API key is empty, and when the external call fails they
return their fixed error sentinel (they are total functions, so no failure
ever escapes to the caller). -/
theorem c9_ai_sentinels (apiKey : String)
    (api : String → Except String (Option String))
    (messages : List ChatMessage) (query : String) (ctx : List ChatMessage) :
    (apiKey = "" →
       generateMeetingSummary apiKey api messages = noApiKeyMsg ∧
       askAiAssistant apiKey api query ctx = noApiKeyMsg) ∧
    (∀ e, api (summaryPrompt messages) = Except.error e →
       generateMeetingSummary apiKey api messages = noApiKeyMsg ∨
       generateMeetingSummary apiKey api messages = summaryErrorMsg) ∧
    (∀ e, api (assistantPrompt query ctx) = Except.error e →
       askAiAssistant apiKey api query ctx = noApiKeyMsg ∨
       askAiAssistant apiKey api query ctx = assistantErrorMsg) := by
  refine ⟨?_, ?_, ?_⟩
  · intro h
    simp [generateMeetingSummary, askAiAssistant, h]
  · intro e he
    by_cases hk : apiKey = ""
    · exact Or.inl (by simp [generateMeetingSummary, hk])
    · exact Or.inr (by simp [generateMeetingSummary, hk, he])
  · intro e he
    by_cases hk : apiKey = ""
    · exact Or.inl (by simp [askAiAssistant, hk])
    · exact Or.inr (by simp [askAiAssistant, hk, he])

/-- C9 witness: instantiation on an empty key and on a failing external call. -/
theorem c9_ai_sentinels_witness :
    generateMeetingSummary ("") apiFailStub [] = noApiKeyMsg ∧
    (generateMeetingSummary ("k") apiFailStub [] = noApiKeyMsg ∨
     generateMeetingSummary ("k") apiFailStub [] = summaryErrorMsg) ∧
    (askAiAssistant ("k") apiFailStub ("hi") [] = noApiKeyMsg ∨
     askAiAssistant ("k") apiFailStub ("hi") [] = assistantErrorMsg) :=
  ⟨((c9_ai_sentinels ("") apiFailStub [] ("hi") []).1 rfl).1,
   (c9_ai_sentinels ("k") apiFailStub [] ("hi") []).2.1
     ("network unreachable") rfl,
   (c9_ai_sentinels ("k") apiFailStub [] ("hi") []).2.2
     ("network unreachable") rfl⟩

/-- C10: handleSendMessage always appends the newly built message to the local
log, marks it as assistant-originated exactly when the AI-query flag is set
and the text is not addressed with the bot tag, and hands a CHAT_MESSAGE
broadcast payload to broadcastData exactly when the AI-query flag is unset —
so AI-query messages are never sent to any peer. -/
theorem c10_ai_messages_not_broadcast (u : User) (now : Nat) (text : String)
    (isAiQuery : Bool) (messages : List ChatMessage) :
    ∃ m, (handleSendMessage (some u) now text isAiQuery messages).1 =
        messages ++ [m] ∧
      m.isAi = (isAiQuery && !(text.startsWith geminiTag)) ∧
      (handleSendMessage (some u) now text isAiQuery messages).2 =
        (if isAiQuery then none else some m) := by
  refine ⟨_, rfl, rfl, ?_⟩
  cases isAiQuery <;> simp [handleSendMessage]

/-- Helper: a reaction survives a run of sweeps at some roster index exactly
when it was there at the start and every sweep time of the schedule is less
than 2000ms past its timestamp — the sweep filter never re-adds a reaction. -/
theorem runSweeps_reaction_mem (r : Reaction) :
    ∀ (sweeps : List Nat) (ps : List Participant) (i : Nat) (p : Participant),
      ps[i]? = some p →
      ∀ p2, (runSweeps sweeps ps)[i]? = some p2 →
        (r ∈ p2.reactions ↔
          (r ∈ p.reactions ∧ ∀ s ∈ sweeps, s - r.timestamp < 2000)) := by
  intro sweeps
  induction sweeps with
  | nil =>
    intro ps i p hp p2 hp2
    simp only [runSweeps] at hp2
    rw [hp] at hp2
    injection hp2 with h
    simp [h]
  | cons s rest ih =>
    intro ps i p hp p2 hp2
    simp only [runSweeps] at hp2
    have hp3 : (sweepAt s ps)[i]? =
        some { p with reactions := p.reactions.filter fun r2 => s - r2.timestamp < 2000 } := by
      simp [sweepAt, List.getElem?_map, hp]
    rw [ih (sweepAt s ps) i _ hp3 p2 hp2]
    simp [List.mem_filter, List.forall_mem_cons, and_assoc]

/-- C5 counterexample: a reaction inserted at T = 100 is still present at
query time 2100 ≥ T + 2000, because the last sweep that has fired by then
(at 2000) is only 1900ms past the reaction and the removing sweep at 2500
has not happened yet. This refutes absence from T + 2000 onward. -/
theorem c5_counterexample_reaction_survives_past_ttl :
    100 + 2000 ≤ 2100 ∧
    ∃ p ∈ runSweeps (sweepTimesUpTo 2100)
        (addReaction ("r1") ("A") ("clap") 100 [blankParticipant ("A")]),
      ∃ r ∈ p.reactions, r.timestamp = 100 := by
  decide

/-- C5 amended: a reaction appended at time T to a participant is present at
every query time before T + 2000, and is removed by the first 500ms sweep at
or after T + 2000 — in particular it is absent at every query time from
T + 2500 onward. -/
theorem c5_reaction_ttl_window (ps : List Participant) (rid pid emoji : String)
    (T : Nat) (i : Nat) (p : Participant)
    (hp : ps[i]? = some p) (hpid : p.id = pid) :
    (∀ t, t < T + 2000 → ∀ p2,
        (runSweeps (sweepTimesUpTo t) (addReaction rid pid emoji T ps))[i]? = some p2 →
        ({ id := rid, emoji := emoji, timestamp := T } : Reaction) ∈ p2.reactions) ∧
    (∀ t, T + 2500 ≤ t → ∀ p2,
        (runSweeps (sweepTimesUpTo t) (addReaction rid pid emoji T ps))[i]? = some p2 →
        ({ id := rid, emoji := emoji, timestamp := T } : Reaction) ∉ p2.reactions) := by
  have hadd : (addReaction rid pid emoji T ps)[i]? =
      some { p with reactions :=
        p.reactions ++ [{ id := rid, emoji := emoji, timestamp := T }] } := by
    simp [addReaction, List.getElem?_map, hp, hpid]
  constructor
  · intro t ht p2 hp2
    rw [runSweeps_reaction_mem _ (sweepTimesUpTo t) _ i _ hadd p2 hp2]
    refine ⟨by simp, ?_⟩
    intro s hs
    simp only [sweepTimesUpTo, List.mem_filter, List.mem_map, List.mem_range,
      decide_eq_true_eq] at hs
    obtain ⟨⟨k, hk, rfl⟩, hpos⟩ := hs
    show 500 * k - T < 2000
    omega
  · intro t ht p2 hp2 hmem
    rw [runSweeps_reaction_mem _ (sweepTimesUpTo t) _ i _ hadd p2 hp2] at hmem
    obtain ⟨_, hall⟩ := hmem
    have hmemS : 500 * ((T + 2000 + 499) / 500) ∈ sweepTimesUpTo t := by
      simp only [sweepTimesUpTo, List.mem_filter, List.mem_map, List.mem_range,
        decide_eq_true_eq]
      exact ⟨⟨(T + 2000 + 499) / 500, by omega, rfl⟩, by omega⟩
    have hlt : 500 * ((T + 2000 + 499) / 500) - T < 2000 := hall _ hmemS
    omega

/-- C5 witness: instantiation of the amended theorem on a concrete roster —
the reaction inserted at 100 is present at query time 1500 and the roster
entry is back to no reactions at query time 2600. -/
theorem c5_reaction_ttl_window_witness :
    ({ id := ("r1"), emoji := ("clap"), timestamp := 100 } : Reaction) ∈
      ({ blankParticipant ("A") with reactions :=
          [{ id := ("r1"), emoji := ("clap"), timestamp := 100 }] } : Participant).reactions ∧
    ({ id := ("r1"), emoji := ("clap"), timestamp := 100 } : Reaction) ∉
      (blankParticipant ("A")).reactions :=
  ⟨(c5_reaction_ttl_window [blankParticipant ("A")] ("r1") ("A") ("clap") 100 0
      (blankParticipant ("A")) rfl rfl).1 1500 (by omega)
      ({ blankParticipant ("A") with reactions :=
          [{ id := ("r1"), emoji := ("clap"), timestamp := 100 }] }) (by decide),
   (c5_reaction_ttl_window [blankParticipant ("A")] ("r1") ("A") ("clap") 100 0
      (blankParticipant ("A")) rfl rfl).2 2600 (by omega)
      (blankParticipant ("A")) (by decide)⟩

/-- C7: processing a USER_INFO message never removes or replaces a stream —
every roster entry keeps exactly the stream it had, and the entry matching
the sender additionally takes the name, avatar and flag fields of the
payload. -/
theorem c7_user_info_preserves_stream (ps : List Participant) (id : String)
    (info : UserInfoPayload) (i : Nat) (p : Participant)
    (hp : ps[i]? = some p) :
    ∃ q, (handleUserInfoUpdate id info ps)[i]? = some q ∧
      q.stream = p.stream ∧
      (p.id = id →
        q.name = info.name ∧ q.avatarUrl = info.avatarUrl ∧
        q.isMuted = info.isMuted ∧ q.isVideoOff = info.isVideoOff) := by
  by_cases hex : (ps.any fun p2 => p2.id == id) = true
  · refine ⟨if p.id == id then applyUserInfo p info else p, ?_, ?_, ?_⟩
    · simp [handleUserInfoUpdate, hex, List.getElem?_map, hp]
    · by_cases hpe : (p.id == id) = true <;> simp [hpe, applyUserInfo]
    · intro hpid
      simp [hpid, applyUserInfo]
  · have hi : i < ps.length := by
      rcases List.getElem?_eq_some.mp hp with ⟨h, _⟩
      exact h
    refine ⟨p, ?_, rfl, ?_⟩
    · rw [handleUserInfoUpdate, if_neg hex, List.getElem?_append_left hi, hp]
    · intro hpid
      exfalso
      have hpm : p ∈ ps := List.mem_iff_getElem?.mpr ⟨i, hp⟩
      have : (ps.any fun p2 => p2.id == id) = true :=
        List.any_eq_true.mpr ⟨p, hpm, by simp [hpid]⟩
      exact hex this

/-- C7 witness: instantiation on a roster whose single entry already holds a
stream — the upsert keeps the stream and takes the payload fields. -/
theorem c7_user_info_preserves_stream_witness :
    ∃ q, (handleUserInfoUpdate ("A")
        { id := ("A"), name := ("bob"), avatarUrl := (""), isMuted := true, isVideoOff := false }
        [{ blankParticipant ("A") with stream := some (MediaStream.mk [liveAudioTrack]) }])[0]? =
        some q ∧
      q.stream = ({ blankParticipant ("A") with
          stream := some (MediaStream.mk [liveAudioTrack]) } : Participant).stream ∧
      (({ blankParticipant ("A") with
          stream := some (MediaStream.mk [liveAudioTrack]) } : Participant).id = ("A") →
        q.name = ("bob") ∧ q.avatarUrl = ("") ∧ q.isMuted = true ∧ q.isVideoOff = false) :=
  c7_user_info_preserves_stream
    [{ blankParticipant ("A") with stream := some (MediaStream.mk [liveAudioTrack]) }]
    ("A")
    { id := ("A"), name := ("bob"), avatarUrl := (""), isMuted := true, isVideoOff := false }
    0 ({ blankParticipant ("A") with stream := some (MediaStream.mk [liveAudioTrack]) }) rfl

/-- Helper: the per-call track replacement of toggleCamera relates every
sender to its updated self — each sender is either untouched or is a video
sender whose track alone was replaced by the fresh one. -/
theorem replaceFirstVideoSender_spec (newT : MediaStreamTrack) :
    ∀ senders : List RTCSender,
      List.Forall₂ (senderUpdatedBy newT) senders
        (replaceFirstVideoSender newT senders) := by
  intro senders
  induction senders with
  | nil => exact List.Forall₂.nil
  | cons sndr rest ih =>
    cases htr : sndr.track with
    | none =>
      simp only [replaceFirstVideoSender, htr]
      exact List.Forall₂.cons (Or.inl rfl) ih
    | some t =>
      by_cases hk : (t.kind == videoKind) = true
      · simp only [replaceFirstVideoSender, htr, hk, if_true]
        refine List.Forall₂.cons (Or.inr ⟨t, htr, by simpa using hk, rfl⟩) ?_
        exact List.forall₂_same.mpr fun x _ => Or.inl rfl
      · simp only [replaceFirstVideoSender, htr, hk, if_false]
        exact List.Forall₂.cons (Or.inl rfl) ih

/-- C8 counterexample: with a local stream holding one already-ended audio
track (the microphone had been muted), toggling the camera back on rebuilds
the stream as the fresh video track alone — the ended audio track is
removed from the local stream by the camera toggle. This refutes the claim
that audio tracks are never removed by a camera toggle. -/
theorem c8_counterexample_ended_audio_pruned :
    endedAudioTrack.kind = audioKind ∧
    endedAudioTrack ∈ (MediaStream.mk [endedAudioTrack]).tracks ∧
    (toggleCamera true (some (MediaStream.mk [endedAudioTrack]))
        (Except.ok freshVideoTrack) true []).2.1 =
      some (MediaStream.mk [freshVideoTrack]) ∧
    endedAudioTrack ∉ (MediaStream.mk [freshVideoTrack]).tracks := by
  decide

/-- C8 amended: toggling the camera off stops exactly the video tracks and
leaves the calls untouched; toggling it back on with a freshly acquired
track rebuilds the local stream from the still-live audio tracks plus the
new video track (pruning only already-ended audio tracks), keeps every live
audio track verbatim, and when in a meeting pushes the new track by
replacing, per call, only the first video sender's track — senders holding
audio are never modified and no connection is rebuilt. If reacquisition
fails, the flag is forced back to off and stream and calls are untouched. -/
theorem c8_camera_toggle (s : MediaStream) (acq : Except Unit MediaStreamTrack)
    (newT : MediaStreamTrack) (inM : Bool) (calls : List MediaCall) :
    ((toggleCamera false (some s) acq inM calls).2.1 = some (stopVideoTracksIn s) ∧
     (toggleCamera false (some s) acq inM calls).2.2 = calls ∧
     (∀ t ∈ s.tracks, ¬(t.kind = videoKind) → t ∈ (stopVideoTracksIn s).tracks) ∧
     (∀ t ∈ s.tracks, t.kind = videoKind → stopTrack t ∈ (stopVideoTracksIn s).tracks) ∧
     (∀ t ∈ (stopVideoTracksIn s).tracks, t.kind = videoKind →
        t.readyState = endedState)) ∧
    ((toggleCamera true (some s) (Except.ok newT) inM calls).2.1 =
        some (rebuildStreamWithVideo s newT) ∧
     newT ∈ (rebuildStreamWithVideo s newT).tracks ∧
     (∀ t ∈ s.tracks, t.kind = audioKind → ¬(t.readyState = endedState) →
        t ∈ (rebuildStreamWithVideo s newT).tracks) ∧
     (∀ t ∈ (rebuildStreamWithVideo s newT).tracks,
        t = newT ∨ (t ∈ s.tracks ∧ t.kind = audioKind ∧ ¬(t.readyState = endedState))) ∧
     (inM = true → (toggleCamera true (some s) (Except.ok newT) inM calls).2.2 =
        calls.map fun c => { c with senders := replaceFirstVideoSender newT c.senders }) ∧
     (∀ senders : List RTCSender,
        List.Forall₂ (senderUpdatedBy newT) senders
          (replaceFirstVideoSender newT senders))) ∧
    (∀ e, toggleCamera true (some s) (Except.error e) inM calls = (true, some s, calls)) := by
  refine ⟨⟨rfl, rfl, ?_, ?_, ?_⟩, ⟨rfl, ?_, ?_, ?_, ?_, replaceFirstVideoSender_spec newT⟩, ?_⟩
  · intro t ht hk
    refine List.mem_map.mpr ⟨t, ht, ?_⟩
    simp [stopVideoTracksIn, hk]
  · intro t ht hk
    exact List.mem_map.mpr ⟨t, ht, by simp [hk]⟩
  · intro t ht hk
    rcases List.mem_map.mp ht with ⟨t0, _, rfl⟩
    by_cases h0 : (t0.kind == videoKind) = true
    · simp [h0, stopTrack]
    · rw [if_neg h0] at hk ⊢
      exact absurd hk (by simpa using h0)
  · simp [rebuildStreamWithVideo]
  · intro t ht hk hs2
    simp only [rebuildStreamWithVideo, List.mem_append, List.mem_filter,
      getAudioTracks]
    exact Or.inl (by simp [List.mem_filter, ht, hk, hs2])
  · intro t ht
    simp only [rebuildStreamWithVideo, List.mem_append, List.mem_filter,
      getAudioTracks, List.mem_singleton] at ht
    rcases ht with ⟨⟨htm, hka⟩, hst⟩ | rfl
    · exact Or.inr ⟨by simpa using htm, by simpa using hka, by simpa using hst⟩
    · exact Or.inl rfl
  · intro hm
    simp [toggleCamera, hm]
  · intro e
    rfl

/-- C8 witness: instantiation on a stream with one live audio track — the live
audio track is still part of the rebuilt stream after camera re-enable. -/
theorem c8_camera_toggle_witness :
    liveAudioTrack ∈
      (rebuildStreamWithVideo (MediaStream.mk [liveAudioTrack]) freshVideoTrack).tracks :=
  ((c8_camera_toggle (MediaStream.mk [liveAudioTrack]) (Except.error ())
      freshVideoTrack true []).2.1).2.2.1 liveAudioTrack (by decide) rfl (by decide)

/-- Helper: mapping an id-preserving function over the roster keeps the id
projection unchanged. -/
theorem idsOf_map_of_id_eq (ps : List Participant) (f : Participant → Participant)
    (h : ∀ p, (f p).id = p.id) : idsOf (ps.map f) = idsOf ps := by
  simp only [idsOf, List.map_map]
  exact List.map_congr_left fun p _ => h p

/-- Helper: an id-preserving map over the roster preserves both roster
invariants (no duplicate ids, no temp-init entry). -/
theorem inv_of_map_id_eq (ps : List Participant) (f : Participant → Participant)
    (h : ∀ p, (f p).id = p.id) (h1 : NodupIds ps) (h2 : NoTempInit ps) :
    NodupIds (ps.map f) ∧ NoTempInit (ps.map f) := by
  have hids := idsOf_map_of_id_eq ps f h
  constructor
  · show (idsOf _).Nodup
    rw [hids]
    exact h1
  · show tempInitId ∉ idsOf _
    rw [hids]
    exact h2

/-- Helper: appending an entry whose id is fresh and is not the temp-init
placeholder preserves both roster invariants. -/
theorem inv_of_append_fresh (ps : List Participant) (q : Participant)
    (h1 : NodupIds ps) (h2 : NoTempInit ps)
    (hfresh : ∀ p ∈ ps, ¬(p.id = q.id)) (hti : ¬(q.id = tempInitId)) :
    NodupIds (ps ++ [q]) ∧ NoTempInit (ps ++ [q]) := by
  have hids : idsOf (ps ++ [q]) = idsOf ps ++ [q.id] := by simp [idsOf]
  constructor
  · show (idsOf _).Nodup
    rw [hids, List.nodup_append]
    refine ⟨h1, List.nodup_singleton _, ?_⟩
    intro a ha hb
    rcases List.mem_map.mp ha with ⟨p, hpm, rfl⟩
    exact hfresh p hpm (List.mem_singleton.mp hb)
  · show tempInitId ∉ idsOf _
    rw [hids]
    intro hmem
    rcases List.mem_append.mp hmem with h | h
    · exact h2 h
    · exact hti (List.mem_singleton.mp h).symm

/-- Helper: every single roster event of src/App.tsx preserves the roster
invariants, assuming the transport well-formedness of the event: the upsert
handlers only append under the not-present guard, flag patches and sweeps
never change ids, the remove handler only filters, and the re-key maps the
placeholder entry to a transport-fresh id. -/
theorem meshStep_preserves_inv (ps : List Participant) (e : MeshEvent)
    (h1 : NodupIds ps) (h2 : NoTempInit ps) (hwf : wfEventB ps e = true) :
    NodupIds (meshStep ps e) ∧ NoTempInit (meshStep ps e) := by
  cases e with
  | userInfo s info =>
    simp only [wfEventB, Bool.and_eq_true, beq_iff_eq, Bool.not_eq_true',
      beq_eq_false_iff_ne, ne_eq] at hwf
    obtain ⟨hid, hsti⟩ := hwf
    simp only [meshStep, handleUserInfoUpdate]
    by_cases hex : (ps.any fun p => p.id == s) = true
    · rw [if_pos hex]
      refine inv_of_map_id_eq ps _ (fun p => ?_) h1 h2
      by_cases hpe : (p.id == s) = true
      · have hps : p.id = s := by simpa using hpe
        simp [hpe, applyUserInfo, hid, hps]
      · simp [hpe]
    · rw [if_neg hex]
      refine inv_of_append_fresh ps _ h1 h2 (fun p hpm hcontra => ?_) hsti
      exact hex (List.any_eq_true.mpr ⟨p, hpm, by simp [hcontra, newParticipantFromInfo]⟩)
  | remoteStream peer str =>
    simp only [wfEventB, Bool.not_eq_true', beq_eq_false_iff_ne, ne_eq] at hwf
    simp only [meshStep, handleRemoteStream]
    by_cases hex : (ps.any fun p => p.id == peer) = true
    · rw [if_pos hex]
      refine inv_of_map_id_eq ps _ (fun p => ?_) h1 h2
      by_cases hpe : (p.id == peer) = true <;> simp [hpe]
    · rw [if_neg hex]
      refine inv_of_append_fresh ps _ h1 h2 (fun p hpm hcontra => ?_) hwf
      exact hex (List.any_eq_true.mpr ⟨p, hpm, by simp [hcontra, streamPlaceholder]⟩)
  | stateUpdate st =>
    simp only [meshStep, updateParticipantState]
    refine inv_of_map_id_eq ps _ (fun p => ?_) h1 h2
    by_cases hpe : (p.id == st.peerId) = true <;> simp [hpe]
  | reactionEvent rid peer emoji now =>
    simp only [meshStep, addReaction]
    refine inv_of_map_id_eq ps _ (fun p => ?_) h1 h2
    by_cases hpe : (p.id == peer) = true <;> simp [hpe]
  | sweep now =>
    simp only [meshStep, sweepAt]
    exact inv_of_map_id_eq ps _ (fun p => rfl) h1 h2
  | removePeer peer =>
    simp only [meshStep, removeParticipant]
    have hsub : List.Sublist (idsOf (ps.filter fun p2 => !(p2.id == peer))) (idsOf ps) := by
      simp only [idsOf]
      exact List.Sublist.map (fun p => p.id) (List.filter_sublist ps)
    constructor
    · show (idsOf _).Nodup
      exact List.Nodup.sublist hsub h1
    · show tempInitId ∉ idsOf _
      exact fun hmem => h2 (hsub.subset hmem)
  | rekey newId name =>
    simp only [wfEventB, Bool.and_eq_true, Bool.not_eq_true', beq_eq_false_iff_ne,
      ne_eq, List.all_eq_true, Bool.or_eq_true, beq_iff_eq] at hwf
    obtain ⟨hti, hfresh⟩ := hwf
    simp only [meshStep, rekeyLocalParticipant]
    have hids : idsOf (ps.map fun p =>
        if p.id == localTempId || p.id == tempInitId then
          { p with id := newId, name := name }
        else p) = (idsOf ps).map (rekeyId newId) := by
      simp only [idsOf, List.map_map]
      refine List.map_congr_left fun p _ => ?_
      by_cases h : (p.id == localTempId || p.id == tempInitId) = true
      · simp [Function.comp, h, rekeyId]
      · simp [Function.comp, h, rekeyId]
    constructor
    · show (idsOf _).Nodup
      rw [hids]
      refine List.Nodup.map_on ?_ h1
      intro x hx y hy hxy
      have hxti : ¬(x = tempInitId) := fun h => h2 (h ▸ hx)
      have hyti : ¬(y = tempInitId) := fun h => h2 (h ▸ hy)
      have hxf : (x = localTempId ∨ x = tempInitId) ∨ ¬(x = newId) := by
        rcases List.mem_map.mp hx with ⟨p, hpm, rfl⟩
        exact hfresh p hpm
      have hyf : (y = localTempId ∨ y = tempInitId) ∨ ¬(y = newId) := by
        rcases List.mem_map.mp hy with ⟨p, hpm, rfl⟩
        exact hfresh p hpm
      simp only [rekeyId] at hxy
      by_cases hxl : x = localTempId <;> by_cases hyl : y = localTempId
      · rw [hxl, hyl]
      · exfalso
        rw [if_pos (by simp [hxl]), if_neg (by simp [hyl, hyti])] at hxy
        rcases hyf with (h | h) | h
        · exact hyl h
        · exact hyti h
        · exact h hxy.symm
      · exfalso
        rw [if_neg (by simp [hxl, hxti]), if_pos (by simp [hyl])] at hxy
        rcases hxf with (h | h) | h
        · exact hxl h
        · exact hxti h
        · exact h hxy
      · rw [if_neg (by simp [hxl, hxti]), if_neg (by simp [hyl, hyti])] at hxy
        exact hxy
    · show tempInitId ∉ idsOf _
      rw [hids]
      intro hmem
      rcases List.mem_map.mp hmem with ⟨x, hx, hxe⟩
      simp only [rekeyId] at hxe
      by_cases hc : (x == localTempId || x == tempInitId) = true
      · rw [if_pos hc] at hxe
        exact hti hxe
      · rw [if_neg hc] at hxe
        exact h2 (hxe ▸ hx)

/-- Helper: the roster invariants are preserved along any transport
well-formed event sequence. -/
theorem runMesh_preserves_inv :
    ∀ (es : List MeshEvent) (ps : List Participant),
      NodupIds ps → NoTempInit ps → wfTrace ps es = true →
      NodupIds (runMesh ps es) ∧ NoTempInit (runMesh ps es) := by
  intro es
  induction es with
  | nil =>
    intro ps h1 h2 _
    exact ⟨h1, h2⟩
  | cons e rest ih =>
    intro ps h1 h2 hwf
    simp only [wfTrace, Bool.and_eq_true] at hwf
    obtain ⟨hw1, hw2⟩ := hwf
    obtain ⟨h3, h4⟩ := meshStep_preserves_inv ps e h1 h2 hw1
    exact ih (meshStep ps e) h3 h4 hw2

/-- C1: starting from the single local placeholder entry installed by
handleJoinMeeting, no transport well-formed sequence of roster events
(USER_INFO arrivals, media-stream arrivals, state updates, reactions,
sweeps, peer removals, and the local placeholder re-key on peer-id
assignment) ever produces two roster entries with the same id. -/
theorem c1_roster_never_duplicates (user : User) (stream : MediaStream)
    (isMuted isVideoOff isBlurred : Bool) (es : List MeshEvent)
    (hwf : wfTrace [initialLocalParticipant user stream isMuted isVideoOff isBlurred]
        es = true) :
    NodupIds (runMesh [initialLocalParticipant user stream isMuted isVideoOff isBlurred] es) := by
  have h1 : NodupIds [initialLocalParticipant user stream isMuted isVideoOff isBlurred] := by
    simp [NodupIds, idsOf]
  have h2 : NoTempInit [initialLocalParticipant user stream isMuted isVideoOff isBlurred] := by
    simp [NoTempInit, idsOf, initialLocalParticipant]
    decide
  exact (runMesh_preserves_inv es _ h1 h2 hwf).1

/-- C1 witness: a concrete well-formed session — a remote USER_INFO, its
media stream, the local re-key to the assigned id, a state update, a
reaction, a sweep and a peer removal — keeps the roster free of duplicate
ids. -/
theorem c1_roster_never_duplicates_witness :
    NodupIds (runMesh
      [initialLocalParticipant
        { id := tempInitId, name := ("alice"), avatarUrl := (""), isHost := true }
        (MediaStream.mk []) false false false]
      [MeshEvent.userInfo ("P1")
         { id := ("P1"), name := ("bob"), avatarUrl := (""), isMuted := false, isVideoOff := false },
       MeshEvent.remoteStream ("P1") (MediaStream.mk []),
       MeshEvent.rekey ("ME") ("alice"),
       MeshEvent.stateUpdate
         { peerId := ("P1"), isMuted := true, isVideoOff := false, isBlurredBackground := false },
       MeshEvent.reactionEvent ("r1") ("P1") ("clap") 100,
       MeshEvent.sweep 500,
       MeshEvent.removePeer ("P1")]) :=
  c1_roster_never_duplicates
    { id := tempInitId, name := ("alice"), avatarUrl := (""), isHost := true }
    (MediaStream.mk []) false false false _ (by decide)

end ConnectMeet
